import Mathlib

/-!
Shallow embedding of `src/build_map.py` (interactive mountain map builder).

The Python module loads a mountain dataset and two GeoJSON-style boundary
documents, renders one marker pair (interactive pin + static label) per
qualifying row into per-province feature groups, mirrors Gipuzkoa challenge
rows into a challenge group, and assembles a folium map document.

Modelling conventions:
* Python `float` cells are modelled by `PyFloat` (an explicit `nan`
  constructor plus exact rationals); the code never does float arithmetic on
  them — it only checks `is None` / `math.isnan` and passes them through.
* A dataset cell that may be `None` is an `Option`; Python falsiness of `None`
  and `""` is modelled explicitly (`pyOrStr`).
* Folium side effects (``.add_to(group)``) are modelled by appending render
  elements to the target group's element list.
* `html.escape(s)` (quote=True) is modelled character-wise; the sequential
  `str.replace` chain of CPython's `html.escape` is extensionally the same map
  because no replacement output contains a character replaced later.
-/

namespace BuildMap

set_option maxRecDepth 16384

/-- A Python float cell: either NaN or an exact numeric value. -/
inductive PyFloat
  | nan
  | val (q : ℚ)
deriving DecidableEq

/-- One dataset row, with the seven schema columns of the mountains file.
`none` models an absent value (Python `None` / missing key). -/
structure Row where
  name : Option String
  lat : Option PyFloat
  lon : Option PyFloat
  climbed : Option Bool
  url : Option String
  province : Option String
  challenge : Option Bool
deriving DecidableEq

/-- Python `x or d` for a string-or-None `x`: `None` and `""` are falsy. -/
def pyOrStr (v : Option String) (d : String) : String :=
  match v with
  | none => d
  | some s => if s = "" then d else s

/-- Whitespace stripped by Python `str.strip()`: the characters for which
CPython's `Py_UNICODE_ISSPACE` holds — ASCII whitespace (tab, LF, VT, FF,
CR, space), the U+001C..U+001F separators, NEL (U+0085), NBSP (U+00A0),
Ogham space (U+1680), the U+2000..U+200A spaces, line/paragraph separators
(U+2028, U+2029), narrow NBSP (U+202F), math space (U+205F), and the
ideographic space (U+3000). -/
def pySpace (c : Char) : Bool :=
  let n := c.toNat
  n == 9 || n == 10 || n == 11 || n == 12 || n == 13 ||
    (decide (28 ≤ n) && decide (n ≤ 32)) || n == 133 || n == 160 || n == 5760 ||
    (decide (8192 ≤ n) && decide (n ≤ 8202)) || n == 8232 || n == 8233 ||
    n == 8239 || n == 8287 || n == 12288

/-- Python `str.strip()`: drop leading and trailing whitespace. -/
def pyStrip (s : String) : String :=
  ⟨((s.data.dropWhile pySpace).reverse.dropWhile pySpace).reverse⟩

/-- `bool(r.get(col, False))` for a boolean cell: absent key defaults to `False`. -/
def pyBool (v : Option Bool) : Bool := v.getD false

/-- Per-character form of Python `html.escape(·, quote=True)`. -/
def escapeChar (c : Char) : List Char :=
  if c = '&' then "&amp;".data
  else if c = '<' then "&lt;".data
  else if c = '>' then "&gt;".data
  else if c = '"' then "&quot;".data
  else if c = Char.ofNat 39 then "&#x27;".data
  else [c]

/-- Escape every character of a character list. -/
def escList : List Char → List Char
  | [] => []
  | c :: cs => escapeChar c ++ escList cs

/-- Model of Python `html.escape(s)` with its default `quote=True`. -/
def htmlEscape (s : String) : String := ⟨escList s.data⟩

/-- `safe_name = html.escape(str(name or ""))` from `add_marker_and_label`. -/
def safe_name (name : Option String) : String := htmlEscape (pyOrStr name "")

/-- `safe_url = html.escape(str(url or "#"))` from `add_marker_and_label`. -/
def safe_url (url : Option String) : String := htmlEscape (pyOrStr url "#")

/-- Fixed popup template text before the interpolated `safe_url`. -/
def popupPre : String :=
  "\n    <div style=\"text-align:center; font-weight:bold\">\n        <a href=\""

/-- Fixed popup template text between `safe_url` and `safe_name`. -/
def popupMid : String :=
  "\" target=\"_blank\" rel=\"noopener noreferrer\" style=\"color:black\">\n            "

/-- Fixed popup template text after the interpolated `safe_name`. -/
def popupSuf : String := "\n        </a>\n    </div>\n    "

/-- The `popup_html` f-string of `add_marker_and_label`. -/
def popup_html (name url : Option String) : String :=
  popupPre ++ safe_url url ++ popupMid ++ safe_name name ++ popupSuf

/-- Fixed label (DivIcon) template text before the interpolated `safe_name`. -/
def labelPre : String :=
  "\n            <div style=\"pointer-events:none; text-align:center;\n                        transform: translate(-50%, 25px);\n                        font-size:12px; font-weight:bold; color:black;\">\n                "

/-- Fixed label (DivIcon) template text after the interpolated `safe_name`. -/
def labelSuf : String := "\n            </div>\n            "

/-- The DivIcon html f-string of the second marker in `add_marker_and_label`. -/
def label_html (name : Option String) : String :=
  labelPre ++ safe_name name ++ labelSuf

/-- Boundary geometries are JSON passed through unmodified; kept as strings. -/
abbrev Geometry := String

/-- One rendered element attached to a folium feature group. -/
inductive Element
  | geoPoly (data : Geometry) (fillColor borderColor : String)
  | pin (lat lon : ℚ) (color : String) (popup : String)
  | label (lat lon : ℚ) (divHtml : String)
deriving DecidableEq

/-- `add_marker_and_label`: attach the interactive pin and the static label
to `group` (two `folium.Marker(...).add_to(group)` calls). -/
def add_marker_and_label (lat lon : ℚ) (name url : Option String) (color : String)
    (group : List Element) : List Element :=
  group ++ [Element.pin lat lon color (popup_html name url),
            Element.label lat lon (label_html name)]

/-- `add_poly`: attach one styled GeoJSON polygon to `group`. -/
def add_poly (group : List Element) (data : Geometry)
    (fill_color border_color : String) : List Element :=
  group ++ [Element.geoPoly data fill_color border_color]

/-- The `ICON_CLIMBED` dict `{True: "green", False: "red"}` as the total map
on `Bool` it denotes. -/
def ICON_CLIMBED : Bool → String := fun b => if b then "green" else "red"

def COLOR_GIPUZKOA : String := "blue"

def COLOR_NAVARRA : String := "red"

def COLOR_JAPAN : String := "red"

def COLOR_CHALLENGE : String := "purple"

def MAP_CENTER : ℚ × ℚ := (431733/10000, -21369/10000)

def MAP_ZOOM : ℕ := 10

/-- The four feature groups of `build_map`, as element lists. -/
structure Layers where
  gip : List Element
  nav : List Element
  chal : List Element
  japan : List Element
deriving DecidableEq

/-- The coordinate guard of the row loop:
`lat is None or (isinstance(lat, float) and math.isnan(lat))`. -/
def coordBad : Option PyFloat → Bool
  | none => true
  | some PyFloat.nan => true
  | some (PyFloat.val _) => false

/-- `prov = (r.get("province") or "").strip()`. -/
def rowProv (r : Row) : String := pyStrip (pyOrStr r.province "")

/-- `color = ICON_CLIMBED[bool(r.get("climbed", False))]`. -/
def rowColor (r : Row) : String := ICON_CLIMBED (pyBool r.climbed)

/-- One iteration of the `for _, r in df.iterrows()` loop of `build_map`:
skip rows without valid coordinates, otherwise dispatch on the stripped
province and render, mirroring Gipuzkoa challenge rows into the challenge
group. -/
def processRow (st : Layers) (r : Row) : Layers :=
  match r.lat, r.lon with
  | some (PyFloat.val lat), some (PyFloat.val lon) =>
    let prov := rowProv r
    let color := rowColor r
    let is_chal := pyBool r.challenge
    if prov = "Gipuzkoa" then
      let st1 := { st with gip := add_marker_and_label lat lon r.name r.url color st.gip }
      if is_chal then
        { st1 with chal := add_marker_and_label lat lon r.name r.url color st1.chal }
      else st1
    else if prov = "Navarra" then
      { st with nav := add_marker_and_label lat lon r.name r.url color st.nav }
    else if prov = "Japan" then
      { st with japan := add_marker_and_label lat lon r.name r.url color st.japan }
    else st
  | _, _ => st

/-- A record of the provincial boundary file: `prov_name` plus `geo_shape`. -/
structure ProvRec where
  prov_name : String
  geo_shape : Geometry
deriving DecidableEq

/-- A record of the world feature collection: `properties.NAME` (flattened to
`NAME`) plus `geometry`. -/
structure Feature where
  NAME : String
  geometry : Geometry
deriving DecidableEq

/-- A parsed boundary document: either the provincial list-of-records shape
or the world feature-collection shape. -/
inductive GeoDoc
  | provincial (recs : List ProvRec)
  | world (feats : List Feature)
deriving DecidableEq

/-- Exceptions the embedded code can raise. -/
inductive PyError
  | stopIteration
  | typeError
  | valueError (msg : String)
deriving DecidableEq

/-- `next(x["geo_shape"] for x in data if x["prov_name"] == name)`:
first match or `StopIteration`. -/
def firstGeoShape (name : String) : List ProvRec → Except PyError Geometry
  | [] => Except.error PyError.stopIteration
  | r :: rs => if r.prov_name = name then Except.ok r.geo_shape else firstGeoShape name rs

/-- `next(x["geometry"] for x in data["features"] if x["properties"]["NAME"] == name)`:
first match or `StopIteration`. -/
def firstGeometry (name : String) : List Feature → Except PyError Geometry
  | [] => Except.error PyError.stopIteration
  | f :: fs => if f.NAME = name then Except.ok f.geometry else firstGeometry name fs

/-- `load_provinces`: the branch is selected by `name == "Japan"`, not by the
document shape. Feeding the other shape to a branch is a Python `TypeError`:
`data["features"]` on a JSON list raises, and iterating a JSON object yields
its string keys, so `x["prov_name"]` on a `str` raises. -/
def load_provinces (name : String) (doc : GeoDoc) : Except PyError Geometry :=
  if name = "Japan" then
    match doc with
    | GeoDoc.world feats => firstGeometry name feats
    | GeoDoc.provincial _ => Except.error PyError.typeError
  else
    match doc with
    | GeoDoc.provincial recs => firstGeoShape name recs
    | GeoDoc.world _ => Except.error PyError.typeError

/-- The `required` column list of `load_mountains`. -/
def required : List String := ["name", "lat", "lon", "climbed", "url", "province", "challenge"]

/-- `missing = [c for c in required if c not in df.columns]`. -/
def missingCols (cols : List String) : List String :=
  required.filter (fun c => !(cols.contains c))

/-- A single-quote character as a string (for Python `repr` of `str`). -/
def sq : String := String.singleton (Char.ofNat 39)

/-- Python `repr` of a list of strings, as interpolated by the f-string
`f"CSV missing columns: \x7bmissing\x7d"`. -/
def pyReprStrList (l : List String) : String :=
  "[" ++ String.intercalate ", " (l.map (fun s => sq ++ s ++ sq)) ++ "]"

/-- `load_mountains`: validate the header column set, then return the rows.
The parsed file is passed in as its header `cols` and its `rows`. -/
def load_mountains (cols : List String) (rows : List Row) : Except PyError (List Row) :=
  let missing := missingCols cols
  if missing = [] then Except.ok rows
  else Except.error (PyError.valueError ("CSV missing columns: " ++ pyReprStrList missing))

/-- Default of the `show` parameter of `folium.FeatureGroup` (modelled from
the folium library: `show=True` when the argument is omitted). -/
def foliumShowDefault : Bool := true

/-- A folium feature group: display name, `show` flag, attached elements. -/
structure FeatureGroup where
  name : String
  showFlag : Bool
  elems : List Element
deriving DecidableEq

/-- The assembled map document returned by `build_map`. -/
structure MapDoc where
  center : ℚ × ℚ
  zoom : ℕ
  tile : String
  fgGip : FeatureGroup
  fgNav : FeatureGroup
  fgChal : FeatureGroup
  fgJapan : FeatureGroup
  controlCollapsed : Bool
deriving DecidableEq

/-- `build_map`: load the three boundary geometries, create the four feature
groups (only the challenge group omits `show=True` and takes the folium
default), render the polygons, load and fold the dataset rows, and attach a
non-collapsed layer control. File inputs are passed in parsed form. -/
def build_map (provDoc japanDoc : GeoDoc) (cols : List String) (rows : List Row) :
    Except PyError MapDoc := do
  let gip_geo ← load_provinces "Gipuzkoa" provDoc
  let nav_geo ← load_provinces "Navarra" provDoc
  let japan_geo ← load_provinces "Japan" japanDoc
  let df ← load_mountains cols rows
  let st0 : Layers :=
    { gip := add_poly [] gip_geo COLOR_GIPUZKOA COLOR_GIPUZKOA
      nav := add_poly [] nav_geo COLOR_NAVARRA COLOR_NAVARRA
      chal := add_poly [] gip_geo COLOR_CHALLENGE COLOR_CHALLENGE
      japan := add_poly [] japan_geo COLOR_JAPAN COLOR_JAPAN }
  let st := df.foldl processRow st0
  Except.ok
    { center := MAP_CENTER
      zoom := MAP_ZOOM
      tile := "OpenStreetMap"
      fgGip := ⟨"Gipuzkoa", true, st.gip⟩
      fgNav := ⟨"Navarra", true, st.nav⟩
      fgChal := ⟨"Challenge (35)", foliumShowDefault, st.chal⟩
      fgJapan := ⟨"Japan", true, st.japan⟩
      controlCollapsed := false }

/-- A character that cannot open or close markup or break an attribute. -/
def goodChar (c : Char) : Bool :=
  !(c == '<') && !(c == '>') && !(c == '"') && !(c == Char.ofNat 39)

def entAmp : List Char := "amp;".data

def entLt : List Char := "lt;".data

def entGt : List Char := "gt;".data

def entQuot : List Char := "quot;".data

def entApos : List Char := "#x27;".data

/-- Does `l` start with the tail of one of the five escape entities? -/
def isEntityTail (l : List Char) : Bool :=
  entAmp.isPrefixOf l || entLt.isPrefixOf l || entGt.isPrefixOf l ||
    entQuot.isPrefixOf l || entApos.isPrefixOf l

/-- Every ampersand in the list begins one of the five escape entities. -/
def ampOk : List Char → Bool
  | [] => true
  | c :: rest => if c = '&' then isEntityTail rest && ampOk rest else ampOk rest

/-- The string carries no raw markup-significant character: no `<`, `>`, `"`
or single quote at all, and every `&` starts an escape entity. -/
def noRawMarkup (t : String) : Bool := t.data.all goodChar && ampOk t.data

/-- `s` occurs as a contiguous substring of `t`. -/
def occursIn (s t : String) : Prop := ∃ u v, (u ++ s.data) ++ v = t.data

/-- A character that is markup-significant in HTML text or attributes. -/
def isMarkupChar (c : Char) : Bool :=
  c == '&' || c == '<' || c == '>' || c == '"' || c == Char.ofNat 39

/-- The remainder of the list after the first occurrence of `pat`. -/
def afterPref (pat : List Char) : List Char → Option (List Char)
  | [] => none
  | c :: rest =>
    if pat.isPrefixOf (c :: rest) then some ((c :: rest).drop pat.length)
    else afterPref pat rest

/-- Observer: the value of the first `href="..."` attribute of a markup string. -/
def hrefAttr (s : String) : Option String :=
  (afterPref "href=\"".data s.data).map
    (fun r => (⟨r.takeWhile (fun c => !(c == '"'))⟩ : String))

/-- Drop everything between `<` and `>` (tag markup), keeping text content. -/
def stripTags : Bool → List Char → List Char
  | _, [] => []
  | _, '<' :: r => stripTags true r
  | true, '>' :: r => stripTags false r
  | true, _ :: r => stripTags true r
  | false, c :: r => c :: stripTags false r

/-- Observer: the non-whitespace text content of a markup string. -/
def labelVisibleText (s : String) : String :=
  ⟨(stripTags false s.data).filter (fun c => !c.isWhitespace)⟩

/-- Observer: colors of the interactive pins of a group, in order. -/
def pinColors (l : List Element) : List String :=
  l.filterMap (fun e => match e with
    | Element.pin _ _ c _ => some c
    | _ => none)

instance {ε α : Type} [DecidableEq ε] [DecidableEq α] : DecidableEq (Except ε α) := fun x y =>
  match x, y with
  | Except.ok a, Except.ok b =>
    if h : a = b then isTrue (by rw [h]) else isFalse (fun hc => by cases hc; exact h rfl)
  | Except.error a, Except.error b =>
    if h : a = b then isTrue (by rw [h]) else isFalse (fun hc => by cases hc; exact h rfl)
  | Except.ok _, Except.error _ => isFalse (fun hc => by cases hc)
  | Except.error _, Except.ok _ => isFalse (fun hc => by cases hc)

/-! ### Helper lemmas about the escaping machinery -/

theorem safe_name_some (s : String) : safe_name (some s) = htmlEscape s := by
  by_cases h : s = ""
  · subst h; rfl
  · simp [safe_name, pyOrStr, h]

theorem safe_url_some (s : String) (h : s ≠ "") : safe_url (some s) = htmlEscape s := by
  simp [safe_url, pyOrStr, h]

theorem escList_all_good : ∀ l : List Char, (escList l).all goodChar = true := by
  intro l
  induction l with
  | nil => rfl
  | cons c cs ih =>
    rw [escList, List.all_append, ih, Bool.and_true]
    by_cases h1 : c = '&'
    · subst h1; decide
    by_cases h2 : c = '<'
    · subst h2; decide
    by_cases h3 : c = '>'
    · subst h3; decide
    by_cases h4 : c = '"'
    · subst h4; decide
    by_cases h5 : c = Char.ofNat 39
    · subst h5; decide
    simp [escapeChar, h1, h2, h3, h4, h5, goodChar]

theorem ampOk_escList : ∀ l : List Char, ampOk (escList l) = true := by
  intro l
  induction l with
  | nil => rfl
  | cons c cs ih =>
    rw [escList]
    by_cases h1 : c = '&'
    · subst h1
      rw [show escapeChar '&' = ['&', 'a', 'm', 'p', ';'] from by decide]
      simp only [List.cons_append, List.nil_append]
      simp [ampOk, isEntityTail, entAmp, entLt, entGt, entQuot, entApos,
        List.isPrefixOf, ih]
    by_cases h2 : c = '<'
    · subst h2
      rw [show escapeChar '<' = ['&', 'l', 't', ';'] from by decide]
      simp only [List.cons_append, List.nil_append]
      simp [ampOk, isEntityTail, entAmp, entLt, entGt, entQuot, entApos,
        List.isPrefixOf, ih]
    by_cases h3 : c = '>'
    · subst h3
      rw [show escapeChar '>' = ['&', 'g', 't', ';'] from by decide]
      simp only [List.cons_append, List.nil_append]
      simp [ampOk, isEntityTail, entAmp, entLt, entGt, entQuot, entApos,
        List.isPrefixOf, ih]
    by_cases h4 : c = '"'
    · subst h4
      rw [show escapeChar '"' = ['&', 'q', 'u', 'o', 't', ';'] from by decide]
      simp only [List.cons_append, List.nil_append]
      simp [ampOk, isEntityTail, entAmp, entLt, entGt, entQuot, entApos,
        List.isPrefixOf, ih]
    by_cases h5 : c = Char.ofNat 39
    · subst h5
      rw [show escapeChar (Char.ofNat 39) = ['&', '#', 'x', '2', '7', ';'] from by decide]
      simp only [List.cons_append, List.nil_append]
      simp [ampOk, isEntityTail, entAmp, entLt, entGt, entQuot, entApos,
        List.isPrefixOf, ih]
    simp only [escapeChar, if_neg h1, if_neg h2, if_neg h3, if_neg h4, if_neg h5,
      List.singleton_append]
    simp only [ampOk, if_neg h1]
    exact ih

theorem htmlEscape_all_good (s : String) : (htmlEscape s).data.all goodChar = true :=
  escList_all_good s.data

theorem noRawMarkup_htmlEscape (s : String) : noRawMarkup (htmlEscape s) = true := by
  unfold noRawMarkup
  rw [htmlEscape_all_good, Bool.true_and]
  exact ampOk_escList s.data

theorem safe_url_all_good (u : Option String) : (safe_url u).data.all goodChar = true :=
  htmlEscape_all_good (pyOrStr u "#")

theorem safe_url_no_quote (u : Option String) :
    (safe_url u).data.all (fun c => !(c == '"')) = true := by
  have h := safe_url_all_good u
  rw [List.all_eq_true] at h ⊢
  intro c hc
  have hg := h c hc
  unfold goodChar at hg
  simp only [Bool.and_eq_true] at hg
  obtain ⟨⟨⟨hg1, hg2⟩, hg3⟩, hg4⟩ := hg
  exact hg3

/-! ### Helper lemmas about substring search (for the href observer) -/

theorem isPrefixOf_length {l : List Char} :
    ∀ {m : List Char}, l.isPrefixOf m = true → l.length ≤ m.length := by
  induction l with
  | nil => intro m _; simp
  | cons a as ih =>
    intro m h
    cases m with
    | nil => simp [List.isPrefixOf] at h
    | cons b bs =>
      simp only [List.isPrefixOf, Bool.and_eq_true] at h
      simpa using ih h.2

theorem isPrefixOf_append_right {l : List Char} (r : List Char) :
    ∀ {m : List Char}, l.isPrefixOf m = true → l.isPrefixOf (m ++ r) = true := by
  induction l with
  | nil => intro m _; simp [List.isPrefixOf]
  | cons a as ih =>
    intro m h
    cases m with
    | nil => simp [List.isPrefixOf] at h
    | cons b bs =>
      simp only [List.isPrefixOf, Bool.and_eq_true] at h
      simp only [List.cons_append, List.isPrefixOf, Bool.and_eq_true]
      exact ⟨h.1, ih h.2⟩

theorem isPrefixOf_of_append {l : List Char} :
    ∀ {m : List Char} {r : List Char}, l.isPrefixOf (m ++ r) = true →
      l.length ≤ m.length → l.isPrefixOf m = true := by
  induction l with
  | nil => intro m r _ _; simp [List.isPrefixOf]
  | cons a as ih =>
    intro m r h hlen
    cases m with
    | nil => simp at hlen
    | cons b bs =>
      simp only [List.cons_append, List.isPrefixOf, Bool.and_eq_true] at h
      simp only [List.isPrefixOf, Bool.and_eq_true]
      exact ⟨h.1, ih h.2 (by simpa using hlen)⟩

theorem afterPref_length {pat : List Char} :
    ∀ {l t : List Char}, afterPref pat l = some t → pat.length ≤ l.length := by
  intro l
  induction l with
  | nil => intro t h; simp [afterPref] at h
  | cons c rest ih =>
    intro t h
    by_cases hc : pat.isPrefixOf (c :: rest) = true
    · exact isPrefixOf_length hc
    · have h' : afterPref pat rest = some t := by simpa [afterPref, hc] using h
      exact Nat.le_trans (ih h') (by simp)

theorem afterPref_append {pat : List Char} (r : List Char) :
    ∀ {l t : List Char}, afterPref pat l = some t →
      afterPref pat (l ++ r) = some (t ++ r) := by
  intro l
  induction l with
  | nil => intro t h; simp [afterPref] at h
  | cons c rest ih =>
    intro t h
    by_cases hc : pat.isPrefixOf (c :: rest) = true
    · have hlen := isPrefixOf_length hc
      have ht : (c :: rest).drop pat.length = t := by simpa [afterPref, hc] using h
      have hc2 : pat.isPrefixOf (c :: (rest ++ r)) = true := by
        have h2 := isPrefixOf_append_right r hc
        rwa [List.cons_append] at h2
      rw [List.cons_append]
      simp only [afterPref]
      rw [if_pos hc2, ← List.cons_append, List.drop_append_of_le_length hlen, ht]
    · have h' : afterPref pat rest = some t := by simpa [afterPref, hc] using h
      have hlen := afterPref_length h'
      have hc2 : ¬ pat.isPrefixOf (c :: (rest ++ r)) = true := by
        intro hcon
        rw [← List.cons_append] at hcon
        have : pat.isPrefixOf (c :: rest) = true := by
          refine isPrefixOf_of_append hcon ?_
          simpa using Nat.le_succ_of_le hlen
        exact hc this
      rw [List.cons_append]
      simp only [afterPref]
      rw [if_neg hc2]
      exact ih h'

theorem takeWhile_append_all {p : Char → Bool} :
    ∀ a b : List Char, a.all p = true → (a ++ b).takeWhile p = a ++ b.takeWhile p := by
  intro a
  induction a with
  | nil => intro b _; simp
  | cons x xs ih =>
    intro b h
    simp only [List.all_cons, Bool.and_eq_true] at h
    simp [List.takeWhile_cons, h.1, ih b h.2]

theorem hrefAttr_popup (name url : Option String) :
    hrefAttr (popup_html name url) = some (safe_url url) := by
  have h0 : afterPref "href=\"".data popupPre.data = some [] := by decide
  have h1 : (popup_html name url).data =
      popupPre.data ++ ((safe_url url).data ++
        (popupMid.data ++ ((safe_name name).data ++ popupSuf.data))) := by
    simp [popup_html, String.data_append, List.append_assoc]
  have h2 := afterPref_append
    ((safe_url url).data ++ (popupMid.data ++ ((safe_name name).data ++ popupSuf.data))) h0
  unfold hrefAttr
  rw [h1, h2]
  simp only [List.nil_append, Option.map_some']
  congr 1
  rw [takeWhile_append_all _ _ (safe_url_no_quote url)]
  have h3 : (popupMid.data ++ ((safe_name name).data ++ popupSuf.data)).takeWhile
      (fun c => !(c == '"')) = [] := rfl
  rw [h3, List.append_nil]

/-! ### C1 and C5 -/

/-- C1: for every record rendered by `add_marker_and_label` whose name
contains markup-significant characters, both the popup markup and the label
markup contain the HTML-escaped form of the name (and the popup that of the
url), and the escaped forms carry no raw markup-significant characters: no
`<`, `>`, `"`, or single quote, and every `&` begins an escape entity. -/
theorem c1_escaped_markup (name url : String)
    (_h : name.data.any isMarkupChar = true) :
    occursIn (htmlEscape name) (popup_html (some name) (some url)) ∧
    occursIn (htmlEscape url) (popup_html (some name) (some url)) ∧
    occursIn (htmlEscape name) (label_html (some name)) ∧
    noRawMarkup (htmlEscape name) = true ∧
    noRawMarkup (htmlEscape url) = true := by
  refine ⟨?_, ?_, ?_, noRawMarkup_htmlEscape name, noRawMarkup_htmlEscape url⟩
  · refine ⟨popupPre.data ++ (safe_url (some url)).data ++ popupMid.data, popupSuf.data, ?_⟩
    simp [popup_html, String.data_append, safe_name_some, List.append_assoc]
  · by_cases hu : url = ""
    · subst hu
      exact ⟨[], (popup_html (some name) (some "")).data, by simp [htmlEscape, escList]⟩
    · refine ⟨popupPre.data,
        popupMid.data ++ (safe_name (some name)).data ++ popupSuf.data, ?_⟩
      simp [popup_html, String.data_append, safe_url_some url hu, List.append_assoc]
  · refine ⟨labelPre.data, labelSuf.data, ?_⟩
    simp [label_html, String.data_append, safe_name_some, List.append_assoc]

theorem c1_escaped_markup_witness :
    ("Mt <Ernio> & Co".data.any isMarkupChar = true) ∧
    (occursIn (htmlEscape "Mt <Ernio> & Co")
        (popup_html (some "Mt <Ernio> & Co") (some "http://e.x/a?b=1&c=2")) ∧
      occursIn (htmlEscape "http://e.x/a?b=1&c=2")
        (popup_html (some "Mt <Ernio> & Co") (some "http://e.x/a?b=1&c=2")) ∧
      occursIn (htmlEscape "Mt <Ernio> & Co") (label_html (some "Mt <Ernio> & Co")) ∧
      noRawMarkup (htmlEscape "Mt <Ernio> & Co") = true ∧
      noRawMarkup (htmlEscape "http://e.x/a?b=1&c=2") = true) :=
  ⟨by decide, c1_escaped_markup "Mt <Ernio> & Co" "http://e.x/a?b=1&c=2" (by decide)⟩

/-- C5: for every rendered row with `url` absent the popup anchor's link
target produced by `add_marker_and_label` is the placeholder `#`, and for
`name` absent the label's visible text is empty. -/
theorem c5_placeholder_url_empty_label (lat lon : ℚ) (name : Option String)
    (color : String) (group : List Element) :
    add_marker_and_label lat lon name none color group =
      group ++ [Element.pin lat lon color (popup_html name none),
                Element.label lat lon (label_html name)] ∧
    hrefAttr (popup_html name none) = some "#" ∧
    labelVisibleText (label_html none) = "" :=
  ⟨rfl, by rw [hrefAttr_popup]; rfl, by decide⟩

/-! ### Row-loop reduction lemmas -/

theorem processRow_skip (st : Layers) (r : Row)
    (h : (coordBad r.lat || coordBad r.lon) = true) : processRow st r = st := by
  obtain ⟨nm, la, lo, cl, ur, pv, ch⟩ := r
  rcases la with _ | (_ | a) <;> rcases lo with _ | (_ | b) <;>
    first
      | rfl
      | simp [coordBad] at h

theorem processRow_render (st : Layers) (r : Row) (a b : ℚ)
    (hla : r.lat = some (PyFloat.val a)) (hlo : r.lon = some (PyFloat.val b)) :
    processRow st r =
      if rowProv r = "Gipuzkoa" then
        (if pyBool r.challenge then
          { st with gip := add_marker_and_label a b r.name r.url (rowColor r) st.gip,
                    chal := add_marker_and_label a b r.name r.url (rowColor r) st.chal }
         else
          { st with gip := add_marker_and_label a b r.name r.url (rowColor r) st.gip })
      else if rowProv r = "Navarra" then
        { st with nav := add_marker_and_label a b r.name r.url (rowColor r) st.nav }
      else if rowProv r = "Japan" then
        { st with japan := add_marker_and_label a b r.name r.url (rowColor r) st.japan }
      else st := by
  obtain ⟨nm, la, lo, cl, ur, pv, ch⟩ := r
  subst hla
  subst hlo
  rfl

/-! ### C2, C3, C4, C9 -/

/-- C2: a row with missing/NaN coordinates contributes zero elements; a valid
row whose (stripped) province matches a configured region adds exactly one
marker pair — one interactive pin plus one static label — to that region's
group, leaving the other region groups unchanged. -/
theorem c2_marker_pair_per_row (st : Layers) (r : Row) :
    ((coordBad r.lat || coordBad r.lon) = true → processRow st r = st) ∧
    (∀ a b : ℚ, r.lat = some (PyFloat.val a) → r.lon = some (PyFloat.val b) →
      (rowProv r = "Gipuzkoa" →
        (processRow st r).gip = st.gip ++
          [Element.pin a b (rowColor r) (popup_html r.name r.url),
           Element.label a b (label_html r.name)] ∧
        (processRow st r).nav = st.nav ∧ (processRow st r).japan = st.japan) ∧
      (rowProv r = "Navarra" →
        (processRow st r).nav = st.nav ++
          [Element.pin a b (rowColor r) (popup_html r.name r.url),
           Element.label a b (label_html r.name)] ∧
        (processRow st r).gip = st.gip ∧ (processRow st r).chal = st.chal ∧
        (processRow st r).japan = st.japan) ∧
      (rowProv r = "Japan" →
        (processRow st r).japan = st.japan ++
          [Element.pin a b (rowColor r) (popup_html r.name r.url),
           Element.label a b (label_html r.name)] ∧
        (processRow st r).gip = st.gip ∧ (processRow st r).chal = st.chal ∧
        (processRow st r).nav = st.nav)) := by
  refine ⟨processRow_skip st r, ?_⟩
  intro a b hla hlo
  rw [processRow_render st r a b hla hlo]
  refine ⟨?_, ?_, ?_⟩
  · intro hp
    rw [if_pos hp]
    cases hch : pyBool r.challenge <;>
      simp [add_marker_and_label]
  · intro hp
    rw [if_neg (by simp [hp]), if_pos hp]
    simp [add_marker_and_label]
  · intro hp
    rw [if_neg (by simp [hp]), if_neg (by simp [hp]), if_pos hp]
    simp [add_marker_and_label]

theorem c2_marker_pair_per_row_witness :
    (processRow ⟨[], [], [], []⟩
        ⟨some "A", some PyFloat.nan, some (PyFloat.val 1), some true, none, some "Gipuzkoa",
          some false⟩ = ⟨[], [], [], []⟩) ∧
    ((processRow ⟨[], [], [], []⟩
        ⟨some "A", some (PyFloat.val 43), some (PyFloat.val (-2)), some true,
          some "http://a", some "Navarra", some false⟩).nav =
      [] ++
        [Element.pin 43 (-2)
          (rowColor ⟨some "A", some (PyFloat.val 43), some (PyFloat.val (-2)), some true,
            some "http://a", some "Navarra", some false⟩)
          (popup_html (some "A") (some "http://a")),
        Element.label 43 (-2) (label_html (some "A"))]) :=
  ⟨(c2_marker_pair_per_row ⟨[], [], [], []⟩ _).1 (by decide),
   (((c2_marker_pair_per_row ⟨[], [], [], []⟩ _).2 43 (-2) rfl rfl).2.1 (by decide)).1⟩

/-- C3: a valid row with the challenge flag set and stripped province
"Gipuzkoa" is rendered twice with the same inputs — into the Gipuzkoa group
and into the challenge group; a challenge row of any other configured region
is rendered only into that region's group. -/
theorem c3_challenge_mirroring (st : Layers) (r : Row) (a b : ℚ)
    (hla : r.lat = some (PyFloat.val a)) (hlo : r.lon = some (PyFloat.val b))
    (hch : pyBool r.challenge = true) :
    (rowProv r = "Gipuzkoa" →
      processRow st r =
        { st with gip := add_marker_and_label a b r.name r.url (rowColor r) st.gip,
                  chal := add_marker_and_label a b r.name r.url (rowColor r) st.chal }) ∧
    (rowProv r = "Navarra" →
      processRow st r =
        { st with nav := add_marker_and_label a b r.name r.url (rowColor r) st.nav }) ∧
    (rowProv r = "Japan" →
      processRow st r =
        { st with japan := add_marker_and_label a b r.name r.url (rowColor r) st.japan }) := by
  rw [processRow_render st r a b hla hlo]
  refine ⟨?_, ?_, ?_⟩
  · intro hp
    rw [if_pos hp, if_pos hch]
  · intro hp
    rw [if_neg (by simp [hp]), if_pos hp]
  · intro hp
    rw [if_neg (by simp [hp]), if_neg (by simp [hp]), if_pos hp]

theorem c3_challenge_mirroring_witness :
    (processRow ⟨[], [], [], []⟩
        ⟨some "P", some (PyFloat.val 43), some (PyFloat.val (-2)), some false, none,
          some "Gipuzkoa", some true⟩ =
      { gip := add_marker_and_label 43 (-2) (some "P") none
          (rowColor ⟨some "P", some (PyFloat.val 43), some (PyFloat.val (-2)), some false, none,
            some "Gipuzkoa", some true⟩) [],
        nav := [],
        chal := add_marker_and_label 43 (-2) (some "P") none
          (rowColor ⟨some "P", some (PyFloat.val 43), some (PyFloat.val (-2)), some false, none,
            some "Gipuzkoa", some true⟩) [],
        japan := [] }) ∧
    (processRow ⟨[], [], [], []⟩
        ⟨some "Q", some (PyFloat.val 42), some (PyFloat.val (-1)), some false, none,
          some "Navarra", some true⟩ =
      { gip := [],
        nav := add_marker_and_label 42 (-1) (some "Q") none
          (rowColor ⟨some "Q", some (PyFloat.val 42), some (PyFloat.val (-1)), some false, none,
            some "Navarra", some true⟩) [],
        chal := [], japan := [] }) :=
  ⟨(c3_challenge_mirroring ⟨[], [], [], []⟩ _ 43 (-2) rfl rfl (by decide)).1 (by decide),
   (c3_challenge_mirroring ⟨[], [], [], []⟩ _ 42 (-1) rfl rfl (by decide)).2.1 (by decide)⟩

/-- C4: the pin color of every rendered row is resolved solely from the
climbed flag through the total two-valued `ICON_CLIMBED` mapping:
`true ↦ "green"`, `false ↦ "red"`, with an absent flag coerced to `false`
and no other outcome possible. -/
theorem c4_color_mapping (st : Layers) (r : Row) (a b : ℚ)
    (hla : r.lat = some (PyFloat.val a)) (hlo : r.lon = some (PyFloat.val b)) :
    (rowProv r = "Gipuzkoa" → pinColors (processRow st r).gip =
      pinColors st.gip ++ [ICON_CLIMBED (pyBool r.climbed)]) ∧
    (rowProv r = "Navarra" → pinColors (processRow st r).nav =
      pinColors st.nav ++ [ICON_CLIMBED (pyBool r.climbed)]) ∧
    (rowProv r = "Japan" → pinColors (processRow st r).japan =
      pinColors st.japan ++ [ICON_CLIMBED (pyBool r.climbed)]) ∧
    ICON_CLIMBED true = "green" ∧ ICON_CLIMBED false = "red" ∧
    pyBool none = false ∧
    (∀ c : Bool, ICON_CLIMBED c = "green" ∨ ICON_CLIMBED c = "red") := by
  rw [processRow_render st r a b hla hlo]
  refine ⟨?_, ?_, ?_, rfl, rfl, rfl, ?_⟩
  · intro hp
    rw [if_pos hp]
    cases hch : pyBool r.challenge <;>
      simp [add_marker_and_label, pinColors, rowColor, List.filterMap_append]
  · intro hp
    rw [if_neg (by simp [hp]), if_pos hp]
    simp [add_marker_and_label, pinColors, rowColor, List.filterMap_append]
  · intro hp
    rw [if_neg (by simp [hp]), if_neg (by simp [hp]), if_pos hp]
    simp [add_marker_and_label, pinColors, rowColor, List.filterMap_append]
  · intro c
    cases c
    · exact Or.inr rfl
    · exact Or.inl rfl

theorem c4_color_mapping_witness :
    (pinColors (processRow ⟨[], [], [], []⟩
        ⟨some "A", some (PyFloat.val 43), some (PyFloat.val (-2)), none, none,
          some "Gipuzkoa", some false⟩).gip =
      pinColors ([] : List Element) ++
        [ICON_CLIMBED (pyBool (none : Option Bool))]) ∧
    ICON_CLIMBED true = "green" ∧ ICON_CLIMBED false = "red" ∧
    pyBool none = false :=
  ⟨(c4_color_mapping ⟨[], [], [], []⟩ _ 43 (-2) rfl rfl).1 (by decide),
   (c4_color_mapping ⟨[], [], [], []⟩
      ⟨some "A", some (PyFloat.val 43), some (PyFloat.val (-2)), none, none,
        some "Gipuzkoa", some false⟩ 43 (-2) rfl rfl).2.2.2.1,
   (c4_color_mapping ⟨[], [], [], []⟩
      ⟨some "A", some (PyFloat.val 43), some (PyFloat.val (-2)), none, none,
        some "Gipuzkoa", some false⟩ 43 (-2) rfl rfl).2.2.2.2.1,
   (c4_color_mapping ⟨[], [], [], []⟩
      ⟨some "A", some (PyFloat.val 43), some (PyFloat.val (-2)), none, none,
        some "Gipuzkoa", some false⟩ 43 (-2) rfl rfl).2.2.2.2.2.1⟩

/-- C9 counterexample: a valid row whose province is `" Gipuzkoa "` — which
is not byte-for-byte equal to any configured region name — is nevertheless
rendered into the Gipuzkoa group, because the code strips surrounding
whitespace before matching; under the claim's exact-match-without-
normalization rule the row would have been silently dropped. The same
happens with Unicode whitespace: `str.strip()` also removes a trailing
NBSP (U+00A0). -/
theorem c9_counterexample :
    ((" Gipuzkoa " : String) ∉ (["Gipuzkoa", "Navarra", "Japan"] : List String)) ∧
    processRow ⟨[], [], [], []⟩
        ⟨some "Ernio", some (PyFloat.val 43), some (PyFloat.val (-2)), some false, none,
          some " Gipuzkoa ", some false⟩ ≠ ⟨[], [], [], []⟩ ∧
    (processRow ⟨[], [], [], []⟩
        ⟨some "Ernio", some (PyFloat.val 43), some (PyFloat.val (-2)), some false, none,
          some " Gipuzkoa ", some false⟩).gip =
      add_marker_and_label 43 (-2) (some "Ernio") none "red" [] ∧
    (("Gipuzkoa\u00A0" : String) ∉ (["Gipuzkoa", "Navarra", "Japan"] : List String)) ∧
    (processRow ⟨[], [], [], []⟩
        ⟨some "Aralar", some (PyFloat.val 42), some (PyFloat.val (-2)), some false, none,
          some "Gipuzkoa\u00A0", some false⟩).gip =
      add_marker_and_label 42 (-2) (some "Aralar") none "red" [] := by
  refine ⟨by decide, ?_, ?_, by decide, ?_⟩ <;> decide

/-- C9 (amended): the target group is resolved by case-sensitive comparison
of the whitespace-stripped province field against the configured region
names; a valid row whose stripped province matches none of them is silently
dropped — it contributes nothing and raises nothing. -/
theorem c9_amended_silent_drop (st : Layers) (r : Row) (a b : ℚ)
    (hla : r.lat = some (PyFloat.val a)) (hlo : r.lon = some (PyFloat.val b))
    (hnm : rowProv r ∉ (["Gipuzkoa", "Navarra", "Japan"] : List String)) :
    processRow st r = st := by
  rw [processRow_render st r a b hla hlo]
  simp only [List.mem_cons, List.not_mem_nil, or_false, not_or] at hnm
  obtain ⟨h1, h2, h3⟩ := hnm
  rw [if_neg h1, if_neg h2, if_neg h3]

theorem c9_amended_silent_drop_witness :
    processRow ⟨[], [], [], []⟩
        ⟨some "MontBlanc", some (PyFloat.val 45), some (PyFloat.val 6), some true,
          none, some "Francia", some true⟩ = ⟨[], [], [], []⟩ :=
  c9_amended_silent_drop ⟨[], [], [], []⟩ _ 45 6 rfl rfl (by decide)

/-! ### Loader reduction lemmas -/

theorem ok_bind {ε α β : Type} (a : α) (f : α → Except ε β) :
    (Except.ok a : Except ε α) >>= f = f a := rfl

theorem error_bind {ε α β : Type} (e : ε) (f : α → Except ε β) :
    (Except.error e : Except ε α) >>= f = Except.error e := rfl

theorem load_provinces_prov (name : String) (recs : List ProvRec) (hn : name ≠ "Japan") :
    load_provinces name (GeoDoc.provincial recs) = firstGeoShape name recs := by
  unfold load_provinces
  rw [if_neg hn]

theorem load_provinces_japan_world (feats : List Feature) :
    load_provinces "Japan" (GeoDoc.world feats) = firstGeometry "Japan" feats := rfl

theorem load_provinces_world_typeError (name : String) (feats : List Feature)
    (hn : name ≠ "Japan") :
    load_provinces name (GeoDoc.world feats) = Except.error PyError.typeError := by
  unfold load_provinces
  rw [if_neg hn]

theorem load_provinces_japan_prov (recs : List ProvRec) :
    load_provinces "Japan" (GeoDoc.provincial recs) = Except.error PyError.typeError := rfl

theorem firstGeoShape_eq (name : String) : ∀ recs : List ProvRec,
    firstGeoShape name recs =
      match recs.find? (fun x => x.prov_name == name) with
      | some rec => Except.ok rec.geo_shape
      | none => Except.error PyError.stopIteration := by
  intro recs
  induction recs with
  | nil => rfl
  | cons rec rs ih =>
    by_cases hp : rec.prov_name = name
    · rw [List.find?_cons_of_pos _ (by simp [hp])]
      simp [firstGeoShape, hp]
    · rw [List.find?_cons_of_neg _ (by simp [hp]), ← ih]
      simp [firstGeoShape, hp]

theorem firstGeometry_eq (name : String) : ∀ feats : List Feature,
    firstGeometry name feats =
      match feats.find? (fun x => x.NAME == name) with
      | some f => Except.ok f.geometry
      | none => Except.error PyError.stopIteration := by
  intro feats
  induction feats with
  | nil => rfl
  | cons f fs ih =>
    by_cases hp : f.NAME = name
    · rw [List.find?_cons_of_pos _ (by simp [hp])]
      simp [firstGeometry, hp]
    · rw [List.find?_cons_of_neg _ (by simp [hp]), ← ih]
      simp [firstGeometry, hp]

/-! ### C6, C7, C8, C10 -/

/-- C6: `load_mountains` accepts exactly the files whose column set is a
superset of the seven required columns, returning the rows unchanged; on any
other file it raises a ValueError whose message is built from exactly the
list of required columns absent from the file, and `build_map` then produces
no document. -/
theorem c6_schema_validation (cols : List String) (rows : List Row)
    (pd jd : GeoDoc) (g1 g2 g3 : Geometry)
    (h1 : load_provinces "Gipuzkoa" pd = Except.ok g1)
    (h2 : load_provinces "Navarra" pd = Except.ok g2)
    (h3 : load_provinces "Japan" jd = Except.ok g3) :
    (∀ m, m ∈ missingCols cols ↔ (m ∈ required ∧ m ∉ cols)) ∧
    (missingCols cols = [] →
      load_mountains cols rows = Except.ok rows ∧
      ∃ doc, build_map pd jd cols rows = Except.ok doc) ∧
    (missingCols cols ≠ [] →
      load_mountains cols rows =
        Except.error (PyError.valueError
          ("CSV missing columns: " ++ pyReprStrList (missingCols cols))) ∧
      build_map pd jd cols rows =
        Except.error (PyError.valueError
          ("CSV missing columns: " ++ pyReprStrList (missingCols cols)))) := by
  refine ⟨?_, ?_, ?_⟩
  · intro m
    rw [missingCols, List.mem_filter]
    simp [List.contains, List.elem_iff]
  · intro hm
    have hlm : load_mountains cols rows = Except.ok rows := by
      simp [load_mountains, hm]
    refine ⟨hlm, ?_⟩
    simp only [build_map, h1, ok_bind, h2, h3, hlm]
    exact ⟨_, rfl⟩
  · intro hm
    have hlm : load_mountains cols rows =
        Except.error (PyError.valueError
          ("CSV missing columns: " ++ pyReprStrList (missingCols cols))) := by
      simp [load_mountains, hm]
    refine ⟨hlm, ?_⟩
    simp only [build_map, h1, ok_bind, h2, h3, hlm, error_bind]

theorem c6_schema_validation_witness :
    (load_mountains required [] = Except.ok ([] : List Row) ∧
      ∃ doc, build_map (GeoDoc.provincial [⟨"Gipuzkoa", "geoGip"⟩, ⟨"Navarra", "geoNav"⟩])
        (GeoDoc.world [⟨"Japan", "geoJap"⟩]) required [] = Except.ok doc) ∧
    (load_mountains ["name", "lat", "lon", "url", "province", "challenge"] [] =
      Except.error (PyError.valueError ("CSV missing columns: " ++
        pyReprStrList (missingCols ["name", "lat", "lon", "url", "province", "challenge"]))) ∧
      build_map (GeoDoc.provincial [⟨"Gipuzkoa", "geoGip"⟩, ⟨"Navarra", "geoNav"⟩])
        (GeoDoc.world [⟨"Japan", "geoJap"⟩]) ["name", "lat", "lon", "url", "province", "challenge"] [] =
        Except.error (PyError.valueError ("CSV missing columns: " ++
          pyReprStrList (missingCols ["name", "lat", "lon", "url", "province", "challenge"])))) :=
  ⟨(c6_schema_validation required []
      (GeoDoc.provincial [⟨"Gipuzkoa", "geoGip"⟩, ⟨"Navarra", "geoNav"⟩])
      (GeoDoc.world [⟨"Japan", "geoJap"⟩]) "geoGip" "geoNav" "geoJap"
      rfl rfl rfl).2.1 (by decide),
   (c6_schema_validation ["name", "lat", "lon", "url", "province", "challenge"] []
      (GeoDoc.provincial [⟨"Gipuzkoa", "geoGip"⟩, ⟨"Navarra", "geoNav"⟩])
      (GeoDoc.world [⟨"Japan", "geoJap"⟩]) "geoGip" "geoNav" "geoJap"
      rfl rfl rfl).2.2 (by decide)⟩

/-- C7 counterexample: a world-shaped boundary document that does contain the
requested name "Gipuzkoa" (under `properties.NAME`) makes `load_provinces`
raise a TypeError instead of returning that entry's geometry, because the
non-"Japan" branch indexes the document as a provincial record list. -/
theorem c7_counterexample :
    load_provinces "Gipuzkoa" (GeoDoc.world [⟨"Gipuzkoa", "geoG"⟩]) =
      Except.error PyError.typeError ∧
    load_provinces "Gipuzkoa" (GeoDoc.world [⟨"Gipuzkoa", "geoG"⟩]) ≠
      Except.ok ("geoG" : Geometry) := by
  exact ⟨rfl, by decide⟩

/-- C7 (amended): on the shape-appropriate pairing — provincial documents for
non-"Japan" names, the world document for "Japan" — a requested name with no
matching entry makes `load_provinces` raise StopIteration and a present name
returns the first matching entry's geometry; a boundary-load failure
propagates out of `build_map`, so no document is produced. Mismatched
shape/name pairings raise a TypeError instead. -/
theorem c7_boundary_lookup (name : String) (recs : List ProvRec)
    (feats : List Feature) (pd jd : GeoDoc) (cols : List String) (rows : List Row)
    (e : PyError) (hn : name ≠ "Japan") :
    (recs.all (fun x => !(x.prov_name == name)) = true →
      load_provinces name (GeoDoc.provincial recs) = Except.error PyError.stopIteration) ∧
    (∀ rec, recs.find? (fun x => x.prov_name == name) = some rec →
      load_provinces name (GeoDoc.provincial recs) = Except.ok rec.geo_shape) ∧
    (feats.all (fun x => !(x.NAME == "Japan")) = true →
      load_provinces "Japan" (GeoDoc.world feats) = Except.error PyError.stopIteration) ∧
    (∀ f, feats.find? (fun x => x.NAME == "Japan") = some f →
      load_provinces "Japan" (GeoDoc.world feats) = Except.ok f.geometry) ∧
    (load_provinces "Gipuzkoa" pd = Except.error e →
      build_map pd jd cols rows = Except.error e) := by
  refine ⟨?_, ?_, ?_, ?_, ?_⟩
  · intro hall
    have hnone : recs.find? (fun x => x.prov_name == name) = none := by
      rw [List.find?_eq_none]
      intro x hx
      simpa using List.all_eq_true.mp hall x hx
    rw [load_provinces_prov name recs hn, firstGeoShape_eq, hnone]
  · intro rec hfind
    rw [load_provinces_prov name recs hn, firstGeoShape_eq, hfind]
  · intro hall
    have hnone : feats.find? (fun x => x.NAME == "Japan") = none := by
      rw [List.find?_eq_none]
      intro x hx
      simpa using List.all_eq_true.mp hall x hx
    rw [load_provinces_japan_world, firstGeometry_eq, hnone]
  · intro f hfind
    rw [load_provinces_japan_world, firstGeometry_eq, hfind]
  · intro he
    simp only [build_map, he, error_bind]

theorem c7_boundary_lookup_witness :
    (load_provinces "Navarra" (GeoDoc.provincial [⟨"Gipuzkoa", "geoGip"⟩]) =
      Except.error PyError.stopIteration) ∧
    (load_provinces "Navarra"
        (GeoDoc.provincial [⟨"Gipuzkoa", "geoGip"⟩, ⟨"Navarra", "geoNav"⟩]) =
      Except.ok ("geoNav" : Geometry)) ∧
    (build_map (GeoDoc.world []) (GeoDoc.world [⟨"Japan", "geoJap"⟩]) required [] =
      Except.error PyError.typeError) :=
  ⟨(c7_boundary_lookup "Navarra" [⟨"Gipuzkoa", "geoGip"⟩] [] (GeoDoc.world [])
      (GeoDoc.world [⟨"Japan", "geoJap"⟩]) required [] PyError.typeError
      (by decide)).1 (by decide),
   (c7_boundary_lookup "Navarra" [⟨"Gipuzkoa", "geoGip"⟩, ⟨"Navarra", "geoNav"⟩] []
      (GeoDoc.world []) (GeoDoc.world [⟨"Japan", "geoJap"⟩]) required [] PyError.typeError
      (by decide)).2.1 ⟨"Navarra", "geoNav"⟩ (by decide),
   (c7_boundary_lookup "Navarra" [] [] (GeoDoc.world [])
      (GeoDoc.world [⟨"Japan", "geoJap"⟩]) required [] PyError.typeError
      (by decide)).2.2.2.2 (by decide)⟩

/-- C8 counterexample: for a world-shaped document whose features carry
`NAME = "Navarra"`, the claim predicts a match via `properties.NAME`
returning the geometry; the code instead selects the provincial access path
(the requested name is not "Japan") and raises a TypeError. -/
theorem c8_counterexample :
    load_provinces "Navarra" (GeoDoc.world [⟨"Navarra", "geoN"⟩]) =
      Except.error PyError.typeError ∧
    load_provinces "Navarra" (GeoDoc.world [⟨"Navarra", "geoN"⟩]) ≠
      Except.ok ("geoN" : Geometry) := by
  exact ⟨rfl, by decide⟩

/-- C8 (amended): the lookup key of `load_provinces` is chosen by the
requested name, not by the supplied document shape: the name "Japan" selects
the feature-collection path (`properties.NAME`, returning `geometry`), any
other name selects the provincial path (`prov_name`, returning `geo_shape`),
and supplying the other document shape to a branch raises a TypeError. -/
theorem c8_key_chosen_by_name (name : String) (recs : List ProvRec)
    (feats : List Feature) (hn : name ≠ "Japan") :
    (load_provinces name (GeoDoc.provincial recs) =
      match recs.find? (fun x => x.prov_name == name) with
      | some rec => Except.ok rec.geo_shape
      | none => Except.error PyError.stopIteration) ∧
    (load_provinces "Japan" (GeoDoc.world feats) =
      match feats.find? (fun x => x.NAME == "Japan") with
      | some f => Except.ok f.geometry
      | none => Except.error PyError.stopIteration) ∧
    load_provinces name (GeoDoc.world feats) = Except.error PyError.typeError ∧
    load_provinces "Japan" (GeoDoc.provincial recs) = Except.error PyError.typeError :=
  ⟨by rw [load_provinces_prov name recs hn]; exact firstGeoShape_eq name recs,
   by rw [load_provinces_japan_world]; exact firstGeometry_eq "Japan" feats,
   load_provinces_world_typeError name feats hn,
   load_provinces_japan_prov recs⟩

theorem c8_key_chosen_by_name_witness :
    ((load_provinces "Gipuzkoa" (GeoDoc.provincial [⟨"Gipuzkoa", "geoGip"⟩]) =
      match [(⟨"Gipuzkoa", "geoGip"⟩ : ProvRec)].find? (fun x => x.prov_name == "Gipuzkoa") with
      | some rec => Except.ok rec.geo_shape
      | none => Except.error PyError.stopIteration) ∧
    (load_provinces "Japan" (GeoDoc.world [⟨"Japan", "geoJap"⟩]) =
      match [(⟨"Japan", "geoJap"⟩ : Feature)].find? (fun x => x.NAME == "Japan") with
      | some f => Except.ok f.geometry
      | none => Except.error PyError.stopIteration) ∧
    load_provinces "Gipuzkoa" (GeoDoc.world [⟨"Japan", "geoJap"⟩]) =
      Except.error PyError.typeError ∧
    load_provinces "Japan" (GeoDoc.provincial [⟨"Gipuzkoa", "geoGip"⟩]) =
      Except.error PyError.typeError) :=
  c8_key_chosen_by_name "Gipuzkoa" [⟨"Gipuzkoa", "geoGip"⟩] [⟨"Japan", "geoJap"⟩] (by decide)

/-- Concrete boundary documents for the end-to-end counterexamples. -/
def provDoc0 : GeoDoc := GeoDoc.provincial [⟨"Gipuzkoa", "geoGip"⟩, ⟨"Navarra", "geoNav"⟩]

def japanDoc0 : GeoDoc := GeoDoc.world [⟨"Japan", "geoJap"⟩]

/-- The document `build_map` produces from `provDoc0`, `japanDoc0` and an
empty dataset. -/
def doc0 : MapDoc :=
  { center := MAP_CENTER
    zoom := MAP_ZOOM
    tile := "OpenStreetMap"
    fgGip := ⟨"Gipuzkoa", true, [Element.geoPoly "geoGip" COLOR_GIPUZKOA COLOR_GIPUZKOA]⟩
    fgNav := ⟨"Navarra", true, [Element.geoPoly "geoNav" COLOR_NAVARRA COLOR_NAVARRA]⟩
    fgChal := ⟨"Challenge (35)", foliumShowDefault,
      [Element.geoPoly "geoGip" COLOR_CHALLENGE COLOR_CHALLENGE]⟩
    fgJapan := ⟨"Japan", true, [Element.geoPoly "geoJap" COLOR_JAPAN COLOR_JAPAN]⟩
    controlCollapsed := false }

/-- C10 counterexample: the challenge feature group is created without an
explicit `show` argument, so it takes folium's default and is default-visible
— its `show` flag is `true`, not the default-hidden (`false`) the claim
states. -/
theorem c10_counterexample :
    build_map provDoc0 japanDoc0 required [] = Except.ok doc0 ∧
    doc0.fgChal.showFlag = true ∧ ¬ doc0.fgChal.showFlag = false :=
  ⟨rfl, rfl, by decide⟩

/-- C10 (amended): every region Layer is created default-visible; the
challenge Layer is created with no explicit visibility flag and inherits the
library default, which is also visible (not hidden); the layer-visibility
control is attached non-collapsed (expanded). -/
theorem c10_layer_visibility (pd jd : GeoDoc) (cols : List String) (rows : List Row)
    (doc : MapDoc) (h : build_map pd jd cols rows = Except.ok doc) :
    doc.fgGip.showFlag = true ∧ doc.fgNav.showFlag = true ∧
    doc.fgJapan.showFlag = true ∧ doc.fgChal.showFlag = foliumShowDefault ∧
    foliumShowDefault = true ∧ doc.controlCollapsed = false := by
  cases e1 : load_provinces "Gipuzkoa" pd with
  | error e => simp only [build_map, e1, error_bind] at h; exact (Except.noConfusion h)
  | ok g1 =>
    simp only [build_map, e1, ok_bind] at h
    cases e2 : load_provinces "Navarra" pd with
    | error e => rw [e2, error_bind] at h; exact (Except.noConfusion h)
    | ok g2 =>
      rw [e2, ok_bind] at h
      cases e3 : load_provinces "Japan" jd with
      | error e => rw [e3, error_bind] at h; exact (Except.noConfusion h)
      | ok g3 =>
        rw [e3, ok_bind] at h
        cases e4 : load_mountains cols rows with
        | error e => rw [e4, error_bind] at h; exact (Except.noConfusion h)
        | ok df =>
          rw [e4, ok_bind] at h
          injection h with hd
          subst hd
          exact ⟨rfl, rfl, rfl, rfl, rfl, rfl⟩

theorem c10_layer_visibility_witness :
    doc0.fgGip.showFlag = true ∧ doc0.fgNav.showFlag = true ∧
    doc0.fgJapan.showFlag = true ∧ doc0.fgChal.showFlag = foliumShowDefault ∧
    foliumShowDefault = true ∧ doc0.controlCollapsed = false :=
  c10_layer_visibility provDoc0 japanDoc0 required [] doc0 rfl

end BuildMap
